import Mathlib

/-
Verification of the yukajii-site digest programs (mt_arxiv_digest.py and
send_digest.py) against their natural-language specification.

The Python sources are shallowly embedded: pure computations become Lean
functions, Python exceptions become Except values with a dedicated error
type, and the external calls (arXiv fetch, OpenAI chat, HTTP) become
explicit inputs supplied by the caller.  Machine integers do not occur;
Python ints are unbounded and map to Int / Nat.
-/

set_option linter.unusedVariables false

namespace Digest

/-! ## Dates

Models datetime.date as used by the program: a plain (year, month, day)
triple, with the Gregorian helpers the code relies on.  -/

structure Date where
  year : Nat
  month : Nat
  day : Nat
deriving DecidableEq, Repr

/-- Gregorian leap-year rule, as in datetime. -/
def isLeap (y : Nat) : Bool :=
  y % 4 == 0 && (y % 100 != 0 || y % 400 == 0)

/-- Number of days in a month, as in datetime. -/
def daysInMonth (y m : Nat) : Nat :=
  if m == 2 then (if isLeap y then 29 else 28)
  else if m == 4 || m == 6 || m == 9 || m == 11 then 30
  else 31

/-- Models date.today() - timedelta(days=1): the calendar day before d. -/
def predDate (d : Date) : Date :=
  if d.day > 1 then ⟨d.year, d.month, d.day - 1⟩
  else if d.month > 1 then ⟨d.year, d.month - 1, daysInMonth d.year (d.month - 1)⟩
  else ⟨d.year - 1, 12, 31⟩

/-- Left-pads the decimal representation of n with zeros to width w. -/
def padNat (w n : Nat) : String :=
  let s := toString n
  (String.mk (List.replicate (w - s.length) '0')) ++ s

/-- Models date.isoformat(): zero-padded YYYY-MM-DD. -/
def isoformat (d : Date) : String :=
  padNat 4 d.year ++ "-" ++ padNat 2 d.month ++ "-" ++ padNat 2 d.day

/-- Decimal value of a digit character. -/
def digitVal (c : Char) : Nat := c.toNat - 48

/-- Decimal value of a digit run. -/
def decimalValue (cs : List Char) : Nat :=
  cs.foldl (fun a c => 10 * a + digitVal c) 0

/-- Interprets a nonempty all-digit string as a natural number; none otherwise. -/
def digitsToNat : List Char → Option Nat
  | [] => none
  | cs => if cs.all Char.isDigit then some (decimalValue cs) else none

/-- Splitting on a separator character, as str.split with a one-character
separator: n separators yield n+1 groups. -/
def splitOnChar (sep : Char) : List Char → List (List Char)
  | [] => [[]]
  | c :: rest =>
    if c = sep then [] :: splitOnChar sep rest
    else
      match splitOnChar sep rest with
      | [] => [[c]]
      | g :: gs => (c :: g) :: gs

/-- Models datetime.strptime(s, "%Y-%m-%d").date(): the year field is
exactly four digits, month and day are one or two digits, the month is
1..12, the day is 1..31 and also valid for the given month, and the year
is at least 1 (datetime rejects year 0).  Returns none where strptime
raises ValueError. -/
def parseDate (s : String) : Option Date :=
  match splitOnChar '-' s.data with
  | [ys, ms, ds] =>
    match digitsToNat ys, digitsToNat ms, digitsToNat ds with
    | some y, some m, some d =>
      if ys.length == 4 && 1 ≤ y &&
         (ms.length == 1 || ms.length == 2) && 1 ≤ m && m ≤ 12 &&
         (ds.length == 1 || ds.length == 2) && 1 ≤ d && d ≤ daysInMonth y m then
        some ⟨y, m, d⟩
      else none
    | _, _, _ => none
  | _ => none

/-! ## Papers and Python list indexing -/

/-- Paper record as built by fetch_cscl: id, title, abstract, url. -/
structure Paper where
  id : String
  title : String
  abstract : String
  url : String
deriving DecidableEq, Repr

instance : Inhabited Paper := ⟨⟨"", "", "", ""⟩⟩

/-- Models Python list subscription xs[k]: nonnegative k indexes from the
front (valid iff k < len), negative k indexes from the back (valid iff
-k ≤ len, resolving to xs[len + k]).  none models an IndexError. -/
def pyGet {α : Type} (xs : List α) (k : Int) : Option α :=
  if 0 ≤ k then xs.get? k.toNat
  else if 0 ≤ (xs.length : Int) + k then xs.get? ((xs.length : Int) + k).toNat
  else none

/-! ## JSON values and a model of json.loads

json.loads is modeled by a fuel-indexed recursive-descent routine over the
character list.  It accepts exactly the inputs Python's decoder accepts:
objects, arrays, strings with the standard escapes, numbers with the
strict leading-zero rule, the literals true / false / null, and the
Python extensions NaN / Infinity / -Infinity.  Non-integral numbers keep
their lexeme; no claim inspects float values. -/

inductive Json where
  | jnull
  | jbool (b : Bool)
  | jint (n : Int)
  | jfloat (lexeme : String)
  | jstr (s : List Char)
  | jarr (xs : List Json)
  | jobj (kvs : List (List Char × Json))

/-- JSON whitespace skipping: space, tab, newline, carriage return. -/
def skipWs : List Char → List Char
  | [] => []
  | c :: rest =>
    if c = ' ' || c = '\t' || c = '\n' || c = '\r' then skipWs rest else c :: rest

/-- Value of a hexadecimal digit, if any, over character codes: digits
are codes 48-57, lowercase a-f are 97-102, uppercase A-F are 65-70. -/
def hexVal (c : Char) : Option Nat :=
  let n := c.toNat
  if 48 ≤ n && n ≤ 57 then some (n - 48)
  else if 97 ≤ n && n ≤ 102 then some (n - 87)
  else if 65 ≤ n && n ≤ 70 then some (n - 55)
  else none

/-- Body of a JSON string literal, the opening quote already consumed.
Returns the decoded content and the remainder after the closing quote.
Control characters below 0x20 are rejected (strict mode); the escapes are
the standard eight plus the four-hex-digit unicode escape. -/
def parseStrBody : List Char → Option (List Char × List Char)
  | [] => none
  | '"' :: rest => some ([], rest)
  | '\\' :: esc =>
    match esc with
    | '"' :: rest => (parseStrBody rest).map (fun (cs, r) => ('"' :: cs, r))
    | '\\' :: rest => (parseStrBody rest).map (fun (cs, r) => ('\\' :: cs, r))
    | '/' :: rest => (parseStrBody rest).map (fun (cs, r) => ('/' :: cs, r))
    | 'b' :: rest => (parseStrBody rest).map (fun (cs, r) => ('\x08' :: cs, r))
    | 'f' :: rest => (parseStrBody rest).map (fun (cs, r) => ('\x0c' :: cs, r))
    | 'n' :: rest => (parseStrBody rest).map (fun (cs, r) => ('\n' :: cs, r))
    | 'r' :: rest => (parseStrBody rest).map (fun (cs, r) => ('\r' :: cs, r))
    | 't' :: rest => (parseStrBody rest).map (fun (cs, r) => ('\t' :: cs, r))
    | 'u' :: h1 :: h2 :: h3 :: h4 :: rest =>
      match hexVal h1, hexVal h2, hexVal h3, hexVal h4 with
      | some a, some b, some c, some d =>
        (parseStrBody rest).map
          (fun (cs, r) => (Char.ofNat (((a * 16 + b) * 16 + c) * 16 + d) :: cs, r))
      | _, _, _, _ => none
    | _ => none
  | c :: rest =>
    if c.toNat < 0x20 then none
    else (parseStrBody rest).map (fun (cs, r) => (c :: cs, r))

/-- JSON number starting at the current position: -?(0|[1-9][0-9]*)
optionally followed by a fraction and an exponent.  A number with a
fraction or an exponent is a float and keeps its lexeme; otherwise it is
an int.  Digit runs are cut off with List.span. -/
def parseNumber (s : List Char) : Option (Json × List Char) :=
  let (neg, s1) := match s with
    | '-' :: r => (true, r)
    | _ => (false, s)
  let (ds, r1) := s1.span Char.isDigit
  if ds = [] then none
  else if ds.length > 1 && ds.head? == some '0' then none
  else
    let intPart : Int := (decimalValue ds : Nat)
    let (frac, r2) : List Char × List Char :=
      match r1 with
      | '.' :: r =>
        let (fs, rr) := r.span Char.isDigit
        if fs = [] then ([], '.' :: r) else ('.' :: fs, rr)
      | _ => ([], r1)
    if frac ≠ [] || r2.head? == some 'e' || r2.head? == some 'E' then
      match r2 with
      | e :: r3 =>
        if e = 'e' || e = 'E' then
          let (sgn, r4) : List Char × List Char :=
            match r3 with
            | '+' :: r => (['+'], r)
            | '-' :: r => (['-'], r)
            | _ => ([], r3)
          let (es, r5) := r4.span Char.isDigit
          if es = [] then
            if frac = [] then none
            else some (.jfloat ⟨(if neg then ['-'] else []) ++ ds ++ frac⟩, r2)
          else
            some (.jfloat ⟨(if neg then ['-'] else []) ++ ds ++ frac ++ e :: sgn ++ es⟩, r5)
        else
          if frac = [] then none
          else some (.jfloat ⟨(if neg then ['-'] else []) ++ ds ++ frac⟩, r2)
      | [] =>
        if frac = [] then none
        else some (.jfloat ⟨(if neg then ['-'] else []) ++ ds ++ frac⟩, [])
    else
      some (.jint (if neg then -intPart else intPart), r1)

/-- Consumes the given literal word if it is a front segment of s. -/
def dropLit : List Char → List Char → Option (List Char)
  | [], s => some s
  | _, [] => none
  | w :: ws, c :: rest => if w = c then dropLit ws rest else none

/-- Literal token helper: word consumed, fixed JSON value produced. -/
def litTok (w : String) (j : Json) (s : List Char) : Option (Json × List Char) :=
  (dropLit w.data s).map (fun r => (j, r))

mutual

/-- One JSON value, preceded by optional whitespace. -/
def parseValue : Nat → List Char → Option (Json × List Char)
  | 0, _ => none
  | fuel + 1, s =>
    match skipWs s with
    | [] => none
    | '{' :: rest =>
      match skipWs rest with
      | '}' :: r2 => some (.jobj [], r2)
      | s2 => do
        let (kv, r) ← parseMember fuel s2
        let (kvs, r2) ← parseObjTail fuel r
        some (.jobj (kv :: kvs), r2)
    | '[' :: rest =>
      match skipWs rest with
      | ']' :: r2 => some (.jarr [], r2)
      | s2 => do
        let (v, r) ← parseValue fuel s2
        let (vs, r2) ← parseArrTail fuel r
        some (.jarr (v :: vs), r2)
    | '"' :: rest => (parseStrBody rest).map (fun (cs, r) => (.jstr cs, r))
    | s2 =>
      litTok "true" (.jbool true) s2 <|>
      litTok "false" (.jbool false) s2 <|>
      litTok "null" .jnull s2 <|>
      litTok "NaN" (.jfloat "NaN") s2 <|>
      litTok "Infinity" (.jfloat "Infinity") s2 <|>
      litTok "-Infinity" (.jfloat "-Infinity") s2 <|>
      parseNumber s2

/-- Array elements after the first: comma-separated values up to the
closing square bracket. -/
def parseArrTail : Nat → List Char → Option (List Json × List Char)
  | 0, _ => none
  | fuel + 1, s =>
    match skipWs s with
    | ']' :: r => some ([], r)
    | ',' :: r => do
      let (v, r2) ← parseValue fuel r
      let (vs, r3) ← parseArrTail fuel r2
      some (v :: vs, r3)
    | _ => none

/-- One object member: string key, colon, value. -/
def parseMember : Nat → List Char → Option ((List Char × Json) × List Char)
  | 0, _ => none
  | fuel + 1, s =>
    match skipWs s with
    | '"' :: rest => do
      let (k, r) ← parseStrBody rest
      match skipWs r with
      | ':' :: r2 => do
        let (v, r3) ← parseValue fuel r2
        some ((k, v), r3)
      | _ => none
    | _ => none

/-- Object members after the first: comma-separated members up to the
closing curly bracket. -/
def parseObjTail : Nat → List Char → Option (List (List Char × Json) × List Char)
  | 0, _ => none
  | fuel + 1, s =>
    match skipWs s with
    | '}' :: r => some ([], r)
    | ',' :: r => do
      let (kv, r2) ← parseMember fuel r
      let (kvs, r3) ← parseObjTail fuel r2
      some (kv :: kvs, r3)
    | _ => none

end

/-- Models json.loads on a string: one value, optionally surrounded by
whitespace, consuming the whole input.  none models a ValueError
(json.JSONDecodeError).  The fuel bound exceeds the deepest possible
chain of recursive calls, each of which consumes at least one character. -/
def json_loads (s : List Char) : Option Json :=
  match parseValue (2 * s.length + 2) s with
  | some (j, r) => if skipWs r = [] then some j else none
  | none => none

/-! ## The LLM-classification select step (pick_mt_papers) -/

/-- Remainder of the first lazy bracket match: the characters up to and
including the first close bracket, or none when no close bracket
follows. -/
def grabToClose : List Char → Option (List Char)
  | [] => none
  | c :: rest =>
    if c = ']' then some [']']
    else (grabToClose rest).map (fun cs => c :: cs)

/-- Models re.search of the lazy pattern open-bracket dot-star close-bracket
with DOTALL: the match runs from the first open bracket to the first close
bracket after it; none when the pattern does not occur. -/
def extractBracket : List Char → Option (List Char)
  | [] => none
  | c :: rest =>
    if c = '[' then (grabToClose rest).map (fun cs => '[' :: cs)
    else extractBracket rest

/-- Error kinds of the digest pipeline.  selectionParse models the
RuntimeError raised by pick_mt_papers when the reply cannot be parsed;
indexOutOfRange models the IndexError raised by papers[idx-1];
typeError models the TypeError raised when a decoded pick is not an
integer. -/
inductive DigestError where
  | selectionParse (reply : String)
  | indexOutOfRange (idx : Int) (len : Nat)
  | typeError
deriving DecidableEq, Repr

/-- Models pick_mt_papers.  The catalogue and prompt are sent to the
external chat model; the reply argument is the content that call
returns.  The source extracts the first bracketed substring of the reply
and decodes it with json.loads; the decoded value is returned with no
validation of length, range or element type.  The error case models the
RuntimeError raised when extraction or decoding fails. -/
def pick_mt_papers (papers : List Paper) (max_picks : Int) (reply : String) :
    Except DigestError Json :=
  match (extractBracket reply.data).bind json_loads with
  | some j => .ok j
  | none => .error (.selectionParse reply)

/-- Reads a decoded pick list as Python integers: JSON ints are ints and
JSON bools are ints (True is 1, False is 0) under Python arithmetic;
anything else makes index arithmetic raise a TypeError downstream. -/
def jsonInts : List Json → Option (List Int)
  | [] => some []
  | .jint n :: rest => (jsonInts rest).map (fun ns => n :: ns)
  | .jbool b :: rest => (jsonInts rest).map (fun ns => (if b then 1 else 0) :: ns)
  | _ => none

/-- The decoded value as an integer list, when it is an array of Python
integers. -/
def asIntList : Json → Option (List Int)
  | .jarr xs => jsonInts xs
  | _ => none

/-- The integer picks produced by a successful pick_mt_papers call. -/
def pickedInts (papers : List Paper) (max_picks : Int) (reply : String) :
    Option (List Int) :=
  match pick_mt_papers papers max_picks reply with
  | .ok j => asIntList j
  | .error _ => none

/-! ## Preface and Markdown rendering -/

/-- Python str.strip(): removes leading and trailing whitespace. -/
def isPySpace (c : Char) : Bool :=
  c = ' ' || c = '\t' || c = '\n' || c = '\r' || c = '\x0b' || c = '\x0c'

/-- Models reply.strip(). -/
def pyStrip (s : String) : String :=
  String.mk (((s.data.dropWhile isPySpace).reverse.dropWhile isPySpace).reverse)

/-- The chosen papers, in pick order: the list comprehension
[papers[i-1] for i in picks], evaluated left to right, raising at the
first out-of-range index. -/
def chosenOf (papers : List Paper) : List Int → Except DigestError (List Paper)
  | [] => .ok []
  | i :: rest =>
    match pyGet papers (i - 1) with
    | none => .error (.indexOutOfRange i papers.length)
    | some p => (chosenOf papers rest).map (fun ps => p :: ps)

/-- Models the fallible part of draft_preface: building
chosen = [papers[i-1] for i in picks] if picks else [].  The prompt
assembly and the chat call are external I/O; the model reply is supplied
by the pipeline caller. -/
def draft_preface (date : Date) (papers : List Paper) (picks : List Int) :
    Except DigestError (List Paper) :=
  if picks = [] then .ok [] else chosenOf papers picks

/-- Markdown sections for the picked papers: for each index in order,
papers[idx-1] rendered as a linked heading followed by the abstract,
raising at the first out-of-range index. -/
def renderPicks (papers : List Paper) : List Int → Except DigestError (List String)
  | [] => .ok []
  | idx :: rest =>
    match pyGet papers (idx - 1) with
    | none => .error (.indexOutOfRange idx papers.length)
    | some p =>
      (renderPicks papers rest).map
        (fun tl => ("## [" ++ p.title ++ "](" ++ p.url ++ ")") :: "" :: p.abstract :: "" :: tl)

/-- Models write_md: the digest file name and its lines, a header and the
preface followed by one section per pick.  The error is the IndexError
raised by papers[idx-1]. -/
def write_md (date : Date) (preface : String) (papers : List Paper) (picks : List Int) :
    Except DigestError (String × List String) :=
  (renderPicks papers picks).map (fun body =>
    ("mt_digest_" ++ isoformat date ++ ".md",
     ("## MT‑related cs.CL papers for " ++ isoformat date) :: "" :: preface :: "" :: body))

/-! ## The run log (write_log)

The log dictionary is a Python value; json.dumps with no default handler
serializes strings, ints, bools, None, lists and string-keyed dicts, and
raises TypeError on anything else (modeled by the opaque pobj
constructor).  The source passes indent=2; the exact pretty-printing of
the log text is not modeled, only the serialization outcome and the
serialized content. -/

inductive PyVal where
  | pstr (s : String)
  | pint (n : Int)
  | pbool (b : Bool)
  | pnone
  | plist (xs : List PyVal)
  | pdict (kvs : List (String × PyVal))
  | pobj (what : String)

/-- JSON escape of one character, as json.dumps with ensure_ascii=False. -/
def dumpChar (c : Char) : String :=
  if c = '"' then "\\\""
  else if c = '\\' then "\\\\"
  else if c = '\n' then "\\n"
  else if c = '\t' then "\\t"
  else if c = '\r' then "\\r"
  else String.singleton c

/-- JSON string literal for s. -/
def dumpStr (s : String) : String :=
  "\"" ++ String.join (s.data.map dumpChar) ++ "\""

mutual

/-- Models json.dumps on a Python value: none models the TypeError json.dumps
raises on a value of unsupported type. -/
def json_dumps : PyVal → Option String
  | .pstr s => some (dumpStr s)
  | .pint n => some (toString n)
  | .pbool b => some (if b then "true" else "false")
  | .pnone => some "null"
  | .plist xs => (dumpsList xs).map (fun body => "[" ++ body ++ "]")
  | .pdict kvs => (dumpsDict kvs).map (fun body => "\x7b" ++ body ++ "\x7d")
  | .pobj _ => none

/-- Comma-joined serialization of list elements. -/
def dumpsList : List PyVal → Option String
  | [] => some ""
  | [x] => json_dumps x
  | x :: xs => do
    let a ← json_dumps x
    let b ← dumpsList xs
    some (a ++ ", " ++ b)

/-- Comma-joined serialization of dict entries. -/
def dumpsDict : List (String × PyVal) → Option String
  | [] => some ""
  | [(k, v)] => (json_dumps v).map (fun a => dumpStr k ++ ": " ++ a)
  | (k, v) :: kvs => do
    let a ← json_dumps v
    let b ← dumpsDict kvs
    some (dumpStr k ++ ": " ++ a ++ ", " ++ b)

end

mutual

/-- A Python value is JSON-serializable when no opaque object occurs in it. -/
def jsonSerializable : PyVal → Bool
  | .pobj _ => false
  | .plist xs => serList xs
  | .pdict kvs => serDict kvs
  | _ => true

/-- All elements serializable. -/
def serList : List PyVal → Bool
  | [] => true
  | x :: xs => jsonSerializable x && serList xs

/-- All values serializable. -/
def serDict : List (String × PyVal) → Bool
  | [] => true
  | (_, v) :: kvs => jsonSerializable v && serDict kvs

end

/-- Error kind of the log writer: the TypeError json.dumps raises on an
unserializable value. -/
inductive PyError where
  | typeError
deriving DecidableEq, Repr

/-- Models write_log: serializes the log dict with json.dumps and writes
it under the logs directory, named by the target date.  There is no
default= handler in the source, so an unserializable value raises. -/
def write_log (date : Date) (log : PyVal) : Except PyError (String × String) :=
  match json_dumps log with
  | some text => .ok ("mt_digest_" ++ isoformat date ++ ".log", text)
  | none => .error .typeError

/-! ## Date resolution and the pipeline driver -/

/-- Error kinds of resolve_target_date: the uncaught ValueError from
strptime on a malformed positional, and the SystemExit raised for a
malformed DATE environment variable. -/
inductive ResolveError where
  | valueErrorBadDate (s : String)
  | systemExitBadDate (s : String)
deriving DecidableEq, Repr

/-- Python truthiness of an optional string: None and the empty string
are falsy. -/
def truthyStr : Option String → Option String
  | some s => if s = "" then none else some s
  | none => none

/-- Models resolve_target_date: positional, then flag, then DATE
environment variable, then yesterday relative to today's date. -/
def resolve_target_date (cli_pos : Option String) (cli_flag : Option Date)
    (env_var : Option String) (today : Date) : Except ResolveError Date :=
  match truthyStr cli_pos with
  | some s =>
    match parseDate s with
    | some d => .ok d
    | none => .error (.valueErrorBadDate s)
  | none =>
    match cli_flag with
    | some d => .ok d
    | none =>
      match truthyStr env_var with
      | some s =>
        match parseDate s with
        | some d => .ok d
        | none => .error (.systemExitBadDate s)
      | none => .ok (predDate today)

/-- Observable effects of one digest run: process exit code, the Markdown
artifact (name and lines) if written, the log artifact name if written,
what was printed, and whether the selection and preface stages ran. -/
structure RunEffects where
  exitCode : Nat
  mdFile : Option (String × List String)
  logFile : Option String
  stdout : List String
  ranSelection : Bool
  ranPreface : Bool
deriving DecidableEq, Repr

/-- The run-log dictionary built in main from the data available in this
model; the timestamp and token-usage entries are external I/O values and
are omitted.  Every entry is serializable. -/
def runLogDict (target_date : Date) (papers : List Paper) (picks : List Int)
    (preface selectReply : String) : PyVal :=
  .pdict
    [("target_date", .pstr (isoformat target_date)),
     ("total_papers", .pint papers.length),
     ("picked_indices", .plist (picks.map PyVal.pint)),
     ("preface", .pstr preface),
     ("selection_reply_raw", .pstr selectReply)]

/-- Models main after date resolution: fetch produced the given papers;
the two chat calls produced selectReply and prefaceReply.  An empty
fetch prints an informational message and returns (exit 0, no
artifacts); otherwise selection, preface, render and log run in order,
and any uncaught exception aborts with exit code 1. -/
def main_flow (target_date : Date) (max_picks : Int) (papers : List Paper)
    (selectReply prefaceReply : String) : RunEffects :=
  if papers = [] then
    { exitCode := 0, mdFile := none, logFile := none,
      stdout := ["No cs.CL papers on that date."],
      ranSelection := false, ranPreface := false }
  else
    match pick_mt_papers papers max_picks selectReply with
    | .error _ =>
      { exitCode := 1, mdFile := none, logFile := none, stdout := [],
        ranSelection := true, ranPreface := false }
    | .ok j =>
      match asIntList j with
      | none =>
        { exitCode := 1, mdFile := none, logFile := none, stdout := [],
          ranSelection := true, ranPreface := true }
      | some picks =>
        match draft_preface target_date papers picks with
        | .error _ =>
          { exitCode := 1, mdFile := none, logFile := none, stdout := [],
            ranSelection := true, ranPreface := true }
        | .ok _chosen =>
          let preface := pyStrip prefaceReply
          match write_md target_date preface papers picks with
          | .error _ =>
            { exitCode := 1, mdFile := none, logFile := none, stdout := [],
              ranSelection := true, ranPreface := true }
          | .ok (mdName, lines) =>
            match write_log target_date
                (runLogDict target_date papers picks preface selectReply) with
            | .error _ =>
              { exitCode := 1, mdFile := some (mdName, lines), logFile := none,
                stdout := [], ranSelection := true, ranPreface := true }
            | .ok (logName, _text) =>
              { exitCode := 0, mdFile := some (mdName, lines),
                logFile := some logName,
                stdout := ["✓ Digest saved at " ++ mdName ++ "  |  Log → logs/" ++ logName],
                ranSelection := true, ranPreface := true }

/-! ## The notifier (send_digest.py)

The script runs at module level: CLI check, file check, token check,
subject computation, draft upload, duplicate recovery, send.  HTTP is an
external collaborator: the oracle argument maps the index of each HTTP
call (0 for the first, 1 for the second, ...) to the response the
service returns.  Every request actually issued is recorded in order. -/

def BTN_API : String := "https://api.buttondown.email/v1"

/-- An outbound HTTP request of the notifier. -/
inductive Req where
  | post (url : String) (body : String)
  | get (url : String)
deriving DecidableEq, Repr

/-- The fields of an HTTP response the script reads: ok, the status code,
the json code field, the json id field, the json results ids, and
whether raise_for_status raises. -/
structure HttpResp where
  ok : Bool
  status : Nat
  code : Option String
  id : Option String
  results : List String
  raiseStatus : Bool
deriving DecidableEq, Repr

/-- Terminal outcomes of a send_digest run. -/
inductive SendResult where
  | usageError
  | fileNotFound (path : String)
  | missingToken
  | badDateName (s : String)
  | nameError (name : String)
  | keyError
  | httpError
  | dupNotFound
  | uploadFailed
  | sendFailed (status : Nat)
  | alreadySent
  | sent
deriving DecidableEq, Repr

/-- Process exit code of each outcome: 0 on success and on the recovered
already-sent duplicate; 1 on every die call and on every uncaught
exception. -/
def sendExitCode : SendResult → Nat
  | .sent => 0
  | .alreadySent => 0
  | _ => 1

/-- pathlib stem: the final path component without its last suffix. -/
def stem (name : String) : String :=
  let base := (splitOnChar '/' name.data).getLastD name.data
  let parts := splitOnChar '.' base
  if parts.length ≤ 1 then String.mk base
  else if base.head? = some '.' && parts.length = 2 then String.mk base
  else String.mk (List.intercalate ['.'] parts.dropLast)

/-- Python s[-n:]: the last n characters, or all of s when it is shorter. -/
def lastN (n : Nat) (s : String) : String :=
  String.mk (s.data.drop (s.data.length - n))

/-- strftime month abbreviation. -/
def monthAbbr : Nat → String
  | 1 => "Jan" | 2 => "Feb" | 3 => "Mar" | 4 => "Apr"
  | 5 => "May" | 6 => "Jun" | 7 => "Jul" | 8 => "Aug"
  | 9 => "Sep" | 10 => "Oct" | 11 => "Nov" | 12 => "Dec"
  | _ => ""

/-- Models strftime of the percent-b percent-d percent-Y pattern used for
the pretty subject date. -/
def prettyDate (d : Date) : String :=
  monthAbbr d.month ++ " " ++ padNat 2 d.day ++ " " ++ padNat 4 d.year

/-- urllib.parse.quote_plus: spaces become plus signs; letters, digits
and the safe punctuation stay; everything else is percent-encoded per
UTF-8 byte. -/
def quotePlus (s : String) : String :=
  let hexDigit : Nat → Char := fun n =>
    if n < 10 then Char.ofNat ('0'.toNat + n) else Char.ofNat ('A'.toNat + n - 10)
  let encByte : Nat → String := fun b =>
    String.mk ['%', hexDigit (b / 16), hexDigit (b % 16)]
  String.join (s.data.map (fun c =>
    if c = ' ' then "+"
    else if c.isAlphanum || c = '-' || c = '_' || c = '.' || c = '~' then String.singleton c
    else String.join ((String.singleton c).toUTF8.toList.map (fun b => encByte b.toNat))))

/-- Name lookup in the module environment: some when the name is bound. -/
def lookupName (env : List (String × String)) (n : String) : Option String :=
  (env.find? (fun kv => kv.fst = n)).map Prod.snd

/-- Send step (lines 112-129): posts send-draft for the draft id, treats a
400 email_duplicate as an already-sent success, dies on any other
failure. -/
def doSend (oracle : Nat → HttpResp) (k : Nat) (email_id : String) (acc : List Req) :
    SendResult × List Req :=
  let req : Req := .post (BTN_API ++ "/emails/" ++ email_id ++ "/send-draft") "\x7b\x7d"
  let resp := oracle k
  if !resp.ok then
    if resp.status = 400 && resp.code = some "email_duplicate" then
      (.alreadySent, acc ++ [req])
    else (.sendFailed resp.status, acc ++ [req])
  else (.sent, acc ++ [req])

/-- Upload step (lines 77-107): posts the draft; on a non-ok response
with code email_duplicate, looks the existing draft up by subject and
reuses its id; otherwise dies.  The subject used for the payload and the
lookup is the value of the name SUBJECT, resolved in the module
environment. -/
def uploadAndSend (subjEnv : List (String × String)) (content : String)
    (oracle : Nat → HttpResp) : SendResult × List Req :=
  match lookupName subjEnv "SUBJECT" with
  | none => (.nameError "SUBJECT", [])
  | some subj =>
    let req0 : Req := .post (BTN_API ++ "/emails") content
    let resp := oracle 0
    if !resp.ok then
      if resp.code = some "email_duplicate" then
        match lookupName subjEnv "SUBJECT" with
        | none => (.nameError "SUBJECT", [req0])
        | some subj2 =>
          let req1 : Req := .get (BTN_API ++ "/emails?state=draft&search=" ++ quotePlus subj2)
          let drafts := oracle 1
          if drafts.raiseStatus then (.httpError, [req0, req1])
          else
            match drafts.results.head? with
            | none => (.dupNotFound, [req0, req1])
            | some email_id => doSend oracle 2 email_id [req0, req1]
      else (.uploadFailed, [req0])
    else
      match resp.id with
      | none => (.keyError, [req0])
      | some email_id => doSend oracle 1 email_id [req0]

/-- Models the send_digest.py script run: argv is sys.argv, fileExists
and content describe the Markdown path, token is the BUTTONDOWN_TOKEN
environment variable, oracle is the newsletter service.  The module
environment binds the lowercase name subject; the capitalized name
SUBJECT referenced by the payload is unbound. -/
def send_digest (argv : List String) (fileExists : Bool) (content : String)
    (token : Option String) (oracle : Nat → HttpResp) : SendResult × List Req :=
  if argv.length ≠ 2 then (.usageError, [])
  else
    let path := argv.getD 1 ""
    if !fileExists then (.fileNotFound path, [])
    else
      match truthyStr token with
      | none => (.missingToken, [])
      | some _tok =>
        let subject_date := lastN 10 (stem path)
        match parseDate subject_date with
        | none => (.badDateName subject_date, [])
        | some date_obj =>
          let pretty := prettyDate date_obj
          let subject := "Machine-Translation Digest — " ++ pretty
          uploadAndSend [("subject", subject)] content oracle

/-! ## The embedding-similarity ranking strategy

Strategy B of the spec is not among the source files under src/; it is
modelled from the spec here.  The embedding encoder is an external
collaborator, so the cosine score of a paper against the concept vector
is an input function; scores are rationals, standing in for the real
cosine values in the interval from -1 to 1. -/

/-- Sort key of the spec: primarily score descending, secondarily
original index ascending. -/
def selKey (a b : ℚ × Nat) : Prop :=
  b.1 < a.1 ∨ (a.1 = b.1 ∧ a.2 ≤ b.2)

instance : DecidableRel selKey := fun a b =>
  inferInstanceAs (Decidable (b.1 < a.1 ∨ (a.1 = b.1 ∧ a.2 ≤ b.2)))

instance : IsTrans (ℚ × Nat) selKey where
  trans a b c hab hbc := by
    rcases hab with h1 | ⟨e1, l1⟩
    · rcases hbc with h2 | ⟨e2, l2⟩
      · exact Or.inl (lt_trans h2 h1)
      · exact Or.inl (e2 ▸ h1)
    · rcases hbc with h2 | ⟨e2, l2⟩
      · exact Or.inl (e1 ▸ h2)
      · exact Or.inr ⟨e1.trans e2, le_trans l1 l2⟩

instance : IsTotal (ℚ × Nat) selKey where
  total a b := by
    rcases lt_trichotomy a.1 b.1 with h | h | h
    · exact Or.inr (Or.inl h)
    · rcases le_total a.2 b.2 with h2 | h2
      · exact Or.inl (Or.inr ⟨h, h2⟩)
      · exact Or.inr (Or.inr ⟨h.symm, h2⟩)
    · exact Or.inl (Or.inl h)

/-- Score-index pairs of the batch, with 1-based indices starting above
the accumulator i. -/
def scoredPairs (score : Paper → ℚ) : List Paper → Nat → List (ℚ × Nat)
  | [], _ => []
  | p :: ps, i => (score p, i + 1) :: scoredPairs score ps (i + 1)

/-- Modelled from the spec: the Strategy B select operation, absent from
the source files under src/.  Per spec steps 2 to 5: score every paper
against the concept vector, sort the score-index pairs with a stable
sort keyed primarily on score descending and secondarily on original
index ascending, and return the top max_picks 1-based indices (or fewer
when the batch is smaller). -/
def embed_select (score : Paper → ℚ) (papers : List Paper) (max_picks : Nat) :
    List Nat :=
  ((List.insertionSort selKey (scoredPairs score papers 0)).take max_picks).map Prod.snd

theorem scoredPairs_length (score : Paper → ℚ) :
    ∀ (ps : List Paper) (i : Nat), (scoredPairs score ps i).length = ps.length := by
  intro ps
  induction ps with
  | nil => intro i; rfl
  | cons p ps ih => intro i; simp [scoredPairs, ih]

theorem mem_scoredPairs (score : Paper → ℚ) :
    ∀ (ps : List Paper) (i : Nat) (x : ℚ × Nat), x ∈ scoredPairs score ps i →
      ∃ k, k < ps.length ∧ x.2 = i + k + 1 ∧ x.1 = score (ps.getD k default) := by
  intro ps
  induction ps with
  | nil => intro i x hx; cases hx
  | cons p ps ih =>
    intro i x hx
    rcases List.mem_cons.mp hx with h | h
    · exact ⟨0, by simp, by simp [h], by simp [h]⟩
    · obtain ⟨k, hk, h2, h1⟩ := ih (i + 1) x h
      exact ⟨k + 1, by simpa using Nat.succ_lt_succ hk, by omega, by simpa using h1⟩

theorem map_snd_scoredPairs (score : Paper → ℚ) :
    ∀ (ps : List Paper) (i : Nat),
      (scoredPairs score ps i).map Prod.snd = List.range' (i + 1) ps.length := by
  intro ps
  induction ps with
  | nil => intro i; rfl
  | cons p ps ih => intro i; simp [scoredPairs, ih, List.range'_succ]

/-! ## Concrete fixtures -/

/-- A five-paper batch used for concrete evaluations. -/
def samplePapers5 : List Paper :=
  [⟨"2505.00001", "Adaptive MT with LLMs", "Abstract one.", "https://arxiv.org/pdf/2505.00001"⟩,
   ⟨"2505.00002", "Quality Estimation for MT", "Abstract two.", "https://arxiv.org/pdf/2505.00002"⟩,
   ⟨"2505.00003", "Prompting for Translation", "Abstract three.", "https://arxiv.org/pdf/2505.00003"⟩,
   ⟨"2505.00004", "Terminology-aware NMT", "Abstract four.", "https://arxiv.org/pdf/2505.00004"⟩,
   ⟨"2505.00005", "Speech Translation Survey", "Abstract five.", "https://arxiv.org/pdf/2505.00005"⟩]

/-! ## Properties of the lazy bracket extraction -/

theorem grabToClose_eq (rest post : List Char) (h : ']' ∉ rest) :
    grabToClose (rest ++ ']' :: post) = some (rest ++ [']']) := by
  induction rest with
  | nil => simp [grabToClose]
  | cons c cs ih =>
    have hc : c ≠ ']' := fun e => h (e ▸ List.mem_cons_self c cs)
    have h2 : ']' ∉ cs := fun m => h (List.mem_cons_of_mem c m)
    simp [grabToClose, hc, ih h2]

theorem extractBracket_eq (pre rest post : List Char) (h1 : '[' ∉ pre) (h2 : ']' ∉ rest) :
    extractBracket (pre ++ '[' :: rest ++ ']' :: post) = some ('[' :: (rest ++ [']'])) := by
  induction pre with
  | nil => simp [extractBracket, grabToClose_eq rest post h2]
  | cons c cs ih =>
    have hc : c ≠ '[' := fun e => h1 (e ▸ List.mem_cons_self c cs)
    have h1' : '[' ∉ cs := fun m => h1 (List.mem_cons_of_mem c m)
    simpa [extractBracket, hc] using ih h1'

theorem grabToClose_split :
    ∀ (l out : List Char), grabToClose l = some out →
      ∃ mid post, l = mid ++ ']' :: post := by
  intro l
  induction l with
  | nil => intro out h; cases h
  | cons c cs ih =>
    intro out h
    by_cases hc : c = ']'
    · exact ⟨[], cs, by simp [hc]⟩
    · simp only [grabToClose, if_neg hc, Option.map_eq_some'] at h
      obtain ⟨out', hout, _⟩ := h
      obtain ⟨mid, post, rfl⟩ := ih out' hout
      exact ⟨c :: mid, post, by simp⟩

theorem extractBracket_split :
    ∀ (s out : List Char), extractBracket s = some out →
      ∃ pre mid post, s = pre ++ '[' :: mid ++ ']' :: post := by
  intro s
  induction s with
  | nil => intro out h; cases h
  | cons c cs ih =>
    intro out h
    by_cases hc : c = '['
    · simp only [extractBracket, if_pos hc, Option.map_eq_some'] at h
      obtain ⟨out', hout, _⟩ := h
      obtain ⟨mid, post, rfl⟩ := grabToClose_split cs out' hout
      exact ⟨[], mid, post, by simp [hc]⟩
    · simp only [extractBracket, if_neg hc] at h
      obtain ⟨pre, mid, post, rfl⟩ := ih out h
      exact ⟨c :: pre, mid, post, by simp⟩

/-! ## Claim C1 -/

/-- C1 as stated is false: pick_mt_papers performs no validation, so for
the 5-paper batch, max_picks = 2 and the model reply containing the
array [2, 4, 9], it returns a sequence of length 3 > max_picks whose
element 9 lies outside the valid index set 1..5. -/
theorem C1_counterexample :
    pickedInts samplePapers5 2 "Sure: [2, 4, 9]" = some [2, 4, 9] ∧
    ¬ (([2, 4, 9] : List Int).length ≤ 2) ∧
    (9 : Int) ∈ ([2, 4, 9] : List Int) ∧
    ¬ ((9 : Int) ≤ (samplePapers5.length : Int)) :=
  ⟨rfl, by decide, by decide, by decide⟩

/-- C1 (amended): for every paper batch, every max_picks and every model
reply whose first bracketed substring decodes as a JSON integer array,
pick_mt_papers returns exactly that array, unvalidated: its length is
not clamped to max_picks and its elements are not checked against
1..len(papers), so the claimed bounds hold only when the model's own
array satisfies them. -/
theorem C1_amended (papers : List Paper) (max_picks : Int) (reply : String)
    (pre rest post : List Char) (ns : List Int)
    (hsplit : reply.data = pre ++ '[' :: rest ++ ']' :: post)
    (hpre : '[' ∉ pre) (hrest : ']' ∉ rest)
    (hload : json_loads ('[' :: (rest ++ [']'])) = some (Json.jarr (ns.map Json.jint))) :
    pick_mt_papers papers max_picks reply = .ok (Json.jarr (ns.map Json.jint)) := by
  unfold pick_mt_papers
  rw [hsplit, extractBracket_eq pre rest post hpre hrest]
  simp [hload]

/-- Witness for C1 (amended) at the concrete reply of the spec. -/
theorem C1_amended_witness :
    pick_mt_papers samplePapers5 2 "Sure: [2, 4, 9]" =
      .ok (Json.jarr ([2, 4, 9].map Json.jint)) :=
  C1_amended samplePapers5 2 "Sure: [2, 4, 9]" "Sure: ".data "2, 4, 9".data [] [2, 4, 9]
    (by decide) (by decide) (by decide) rfl

/-! ## Claim C2 -/

/-- C2 as stated is false: the reply text consisting of a non-JSON
bracket group followed by the bracket group [1] contains a decodable
bracketed JSON integer array, yet pick_mt_papers fails, because the lazy
pattern extracts the FIRST bracket group, which does not decode. -/
theorem C2_counterexample :
    ("[1]".data <:+: "[a][1]".data) ∧
    json_loads "[1]".data = some (Json.jarr [Json.jint 1]) ∧
    pick_mt_papers samplePapers5 5 "[a][1]" =
      .error (.selectionParse "[a][1]") :=
  ⟨⟨"[a]".data, [], by decide⟩, rfl, rfl⟩

/-- C2 (amended): the selection fails with the SelectionParseError kind,
and only with it, exactly when the reply has no bracketed substring or
the substring from the first open bracket to the first close bracket
after it fails to decode as JSON; the reply "I cannot comply." produces
that specific error kind, and any reply whose FIRST bracketed substring
decodes as JSON succeeds. -/
theorem C2_amended :
    pick_mt_papers samplePapers5 5 "I cannot comply." =
      .error (.selectionParse "I cannot comply.") ∧
    (∀ (papers : List Paper) (max_picks : Int) (reply : String)
       (pre rest post : List Char) (j : Json),
       reply.data = pre ++ '[' :: rest ++ ']' :: post → '[' ∉ pre → ']' ∉ rest →
       json_loads ('[' :: (rest ++ [']'])) = some j →
       pick_mt_papers papers max_picks reply = .ok j) ∧
    (∀ (papers : List Paper) (max_picks : Int) (reply : String)
       (pre rest post : List Char),
       reply.data = pre ++ '[' :: rest ++ ']' :: post → '[' ∉ pre → ']' ∉ rest →
       json_loads ('[' :: (rest ++ [']'])) = none →
       pick_mt_papers papers max_picks reply = .error (.selectionParse reply)) ∧
    (∀ (papers : List Paper) (max_picks : Int) (reply : String),
       (¬ ∃ pre mid post, reply.data = pre ++ '[' :: mid ++ ']' :: post) →
       pick_mt_papers papers max_picks reply = .error (.selectionParse reply)) := by
  refine ⟨rfl, ?_, ?_, ?_⟩
  · intro papers max_picks reply pre rest post j hsplit hpre hrest hload
    unfold pick_mt_papers
    rw [hsplit, extractBracket_eq pre rest post hpre hrest]
    simp [hload]
  · intro papers max_picks reply pre rest post hsplit hpre hrest hload
    unfold pick_mt_papers
    rw [hsplit, extractBracket_eq pre rest post hpre hrest]
    simp [hload]
  · intro papers max_picks reply hno
    unfold pick_mt_papers
    cases hx : extractBracket reply.data with
    | none => simp
    | some out =>
      exact absurd (extractBracket_split reply.data out hx) hno

/-- Witness for C2 (amended) at a concrete decodable reply. -/
theorem C2_amended_witness :
    pick_mt_papers samplePapers5 5 "picks: [3, 1]" =
      .ok (Json.jarr [Json.jint 3, Json.jint 1]) :=
  C2_amended.2.1 samplePapers5 5 "picks: [3, 1]" "picks: ".data "3, 1".data []
    (Json.jarr [Json.jint 3, Json.jint 1]) (by decide) (by decide) (by decide) rfl

/-! ## Claim C3 -/

/-- C3: for the five-paper batch and the reply containing [2, 4, 9], the
parse returns [2, 4, 9] with the out-of-range index 9 unfiltered, and
both the render step (write_md) and the preface step (draft_preface)
applied to these picks fail with the distinct IndexOutOfRange kind
rather than silently truncating the selection. -/
theorem C3_out_of_range_pick_fails_render :
    pickedInts samplePapers5 5 "Sure: [2, 4, 9]" = some [2, 4, 9] ∧
    write_md ⟨2025, 5, 20⟩ "Preface." samplePapers5 [2, 4, 9] =
      .error (.indexOutOfRange 9 5) ∧
    draft_preface ⟨2025, 5, 20⟩ samplePapers5 [2, 4, 9] =
      .error (.indexOutOfRange 9 5) :=
  ⟨rfl, rfl, rfl⟩

/-! ## Claim C5 -/

/-- C5: when the fetch step returns zero papers the pipeline runs no
selection, preface or render step, writes neither the Markdown nor the
log artifact, prints the informational message, and exits with code 0. -/
theorem C5_zero_papers_no_artifacts (target_date : Date) (max_picks : Int)
    (selectReply prefaceReply : String) :
    main_flow target_date max_picks [] selectReply prefaceReply =
      { exitCode := 0, mdFile := none, logFile := none,
        stdout := ["No cs.CL papers on that date."],
        ranSelection := false, ranPreface := false } := rfl

/-! ## Claim C6 -/

/-- C6: target-date resolution follows the precedence positional over
flag over DATE environment variable over yesterday: a nonempty parseable
positional wins against any flag and environment value; with the
positional absent or empty the flag wins; with both absent the
environment variable wins; with all three absent the result is today
minus one day; and for the concrete triple 2025-05-20 / 2025-05-21 /
2025-05-22 the resolved date is 2025-05-20. -/
theorem C6_date_resolution_precedence :
    (∀ (s : String) (d : Date) (flag : Option Date) (env : Option String) (today : Date),
       s ≠ "" → parseDate s = some d →
       resolve_target_date (some s) flag env today = .ok d) ∧
    (∀ (pos : Option String) (d : Date) (env : Option String) (today : Date),
       truthyStr pos = none →
       resolve_target_date pos (some d) env today = .ok d) ∧
    (∀ (pos : Option String) (s : String) (d : Date) (today : Date),
       truthyStr pos = none → s ≠ "" → parseDate s = some d →
       resolve_target_date pos none (some s) today = .ok d) ∧
    (∀ (pos env : Option String) (today : Date),
       truthyStr pos = none → truthyStr env = none →
       resolve_target_date pos none env today = .ok (predDate today)) ∧
    resolve_target_date (some "2025-05-20") (some ⟨2025, 5, 21⟩)
        (some "2025-05-22") ⟨2025, 6, 1⟩ = .ok ⟨2025, 5, 20⟩ := by
  refine ⟨?_, ?_, ?_, ?_, rfl⟩
  · intro s d flag env today hs hp
    have h1 : truthyStr (some s) = some s := by simp [truthyStr, hs]
    simp [resolve_target_date, h1, hp]
  · intro pos d env today hpos
    simp [resolve_target_date, hpos]
  · intro pos s d today hpos hs hp
    have h1 : truthyStr (some s) = some s := by simp [truthyStr, hs]
    simp [resolve_target_date, hpos, h1, hp]
  · intro pos env today hpos henv
    simp [resolve_target_date, hpos, henv]

/-- Witness for C6 at the concrete inputs of the spec example. -/
theorem C6_date_resolution_witness :
    resolve_target_date (some "2025-05-20") (some ⟨2025, 5, 21⟩)
        (some "2025-05-22") ⟨2025, 6, 1⟩ = .ok ⟨2025, 5, 20⟩ :=
  C6_date_resolution_precedence.2.2.2.2

/-! ## Claim C9 -/

theorem pyGet_in_range {α : Type} (xs : List α) (k : Int)
    (h1 : 0 ≤ (xs.length : Int) + k) (h2 : k < (xs.length : Int)) :
    (pyGet xs k).isSome := by
  unfold pyGet
  by_cases hk : 0 ≤ k
  · rw [if_pos hk]
    have : k.toNat < xs.length := by omega
    simp [List.get?_eq_getElem?, List.getElem?_eq_getElem this]
  · rw [if_neg hk, if_pos h1]
    have : ((xs.length : Int) + k).toNat < xs.length := by omega
    simp [List.get?_eq_getElem?, List.getElem?_eq_getElem this]

theorem pyGet_out_of_range {α : Type} (xs : List α) (k : Int)
    (h : (xs.length : Int) ≤ k ∨ (xs.length : Int) + k < 0) :
    pyGet xs k = none := by
  unfold pyGet
  rcases h with h | h
  · have hk : 0 ≤ k := le_trans (Int.ofNat_nonneg _) h
    rw [if_pos hk]
    have : xs.length ≤ k.toNat := by omega
    simp [List.get?_eq_getElem?, List.getElem?_eq_none this]
  · have hk : ¬ 0 ≤ k := by omega
    rw [if_neg hk, if_neg (by omega)]

/-- C9: Python negative indexing makes picks that are zero or mildly
negative succeed rather than fail: for a nonempty batch and a single
pick idx, both write_md and draft_preface succeed whenever
-len < idx ≤ len, the pick 0 resolves to the LAST paper of the batch,
and the render-time IndexOutOfRange failure occurs exactly for
idx > len or idx ≤ -len. -/
theorem C9_negative_index_behavior (papers : List Paper) (preface : String)
    (date : Date) (idx : Int) (hne : papers ≠ []) :
    (-(papers.length : Int) < idx → idx ≤ (papers.length : Int) →
       (∃ out, write_md date preface papers [idx] = .ok out) ∧
       (∃ chosen, draft_preface date papers [idx] = .ok chosen)) ∧
    (papers.getLast? = some (papers.getLast hne) ∧
       draft_preface date papers [0] = .ok [papers.getLast hne]) ∧
    ((papers.length : Int) < idx ∨ idx ≤ -(papers.length : Int) →
       write_md date preface papers [idx] = .error (.indexOutOfRange idx papers.length) ∧
       draft_preface date papers [idx] = .error (.indexOutOfRange idx papers.length)) := by
  have hlen : 0 < papers.length := List.length_pos.mpr hne
  refine ⟨?_, ⟨List.getLast?_eq_getLast papers hne, ?_⟩, ?_⟩
  · intro hlo hhi
    have hs : (pyGet papers (idx - 1)).isSome :=
      pyGet_in_range papers (idx - 1) (by omega) (by omega)
    obtain ⟨p, hp⟩ := Option.isSome_iff_exists.mp hs
    constructor
    · exact ⟨("mt_digest_" ++ isoformat date ++ ".md",
        ["## MT‑related cs.CL papers for " ++ isoformat date, "", preface, "",
         "## [" ++ p.title ++ "](" ++ p.url ++ ")", "", p.abstract, ""]),
        by simp [write_md, renderPicks, hp, Except.map]⟩
    · exact ⟨[p], by simp [draft_preface, chosenOf, hp, Except.map]⟩
  · have hz : pyGet papers (-1 : Int) = papers.getLast? := by
      unfold pyGet
      rw [if_neg (by omega), if_pos (by omega)]
      have harg : (((papers.length : Int) + (-1))).toNat = papers.length - 1 := by omega
      rw [harg, List.get?_eq_getElem?, List.getLast?_eq_getElem?]
    simp [draft_preface, chosenOf, hz, List.getLast?_eq_getLast papers hne, Except.map]
  · intro h
    have hz : pyGet papers (idx - 1) = none := pyGet_out_of_range papers (idx - 1) (by omega)
    constructor
    · simp [write_md, renderPicks, hz, Except.map]
    · simp [draft_preface, chosenOf, hz]

/-- Witness for C9: on the five-paper batch the pick -2 renders fine, the
pick 0 selects the last paper, and the pick -5 fails with the
IndexOutOfRange kind. -/
theorem C9_negative_index_witness :
    (∃ out, write_md ⟨2025, 5, 20⟩ "P" samplePapers5 [-2] = .ok out) ∧
    draft_preface ⟨2025, 5, 20⟩ samplePapers5 [0] =
      .ok [samplePapers5.getLast (by decide)] ∧
    write_md ⟨2025, 5, 20⟩ "P" samplePapers5 [-5] =
      .error (.indexOutOfRange (-5) 5) := by
  refine ⟨((C9_negative_index_behavior samplePapers5 "P" ⟨2025, 5, 20⟩ (-2)
      (by decide)).1 (by decide) (by decide)).1,
    ((C9_negative_index_behavior samplePapers5 "P" ⟨2025, 5, 20⟩ 0
      (by decide)).2.1).2,
    ((C9_negative_index_behavior samplePapers5 "P" ⟨2025, 5, 20⟩ (-5)
      (by decide)).2.2 (by decide)).1⟩

/-! ## Claim C8 -/

mutual

theorem dumps_isSome : ∀ v : PyVal, (json_dumps v).isSome = jsonSerializable v
  | .pstr s => rfl
  | .pint n => rfl
  | .pbool b => rfl
  | .pnone => rfl
  | .pobj w => rfl
  | .plist xs => by
    have h := dumpsList_isSome xs
    cases hd : dumpsList xs with
    | none => rw [hd] at h; simp only [json_dumps, jsonSerializable, hd, ← h]; rfl
    | some a => rw [hd] at h; simp only [json_dumps, jsonSerializable, hd, ← h]; rfl
  | .pdict kvs => by
    have h := dumpsDict_isSome kvs
    cases hd : dumpsDict kvs with
    | none => rw [hd] at h; simp only [json_dumps, jsonSerializable, hd, ← h]; rfl
    | some a => rw [hd] at h; simp only [json_dumps, jsonSerializable, hd, ← h]; rfl

theorem dumpsList_isSome : ∀ xs : List PyVal, (dumpsList xs).isSome = serList xs
  | [] => rfl
  | [x] => by
    have h := dumps_isSome x
    simp only [dumpsList, serList, Bool.and_true, ← h]
  | x :: y :: xs => by
    have h1 := dumps_isSome x
    have h2 := dumpsList_isSome (y :: xs)
    have hser : serList (x :: y :: xs) = (jsonSerializable x && serList (y :: xs)) := rfl
    cases hx : json_dumps x with
    | none =>
      rw [hx] at h1
      have lhs : dumpsList (x :: y :: xs) = none := by simp [dumpsList, hx]
      rw [lhs, hser, ← h1, ← h2]
      rfl
    | some a =>
      rw [hx] at h1
      cases hd : dumpsList (y :: xs) with
      | none =>
        rw [hd] at h2
        have lhs : dumpsList (x :: y :: xs) = none := by simp [dumpsList, hx, hd]
        rw [lhs, hser, ← h1, ← h2]
        rfl
      | some b =>
        rw [hd] at h2
        have lhs : dumpsList (x :: y :: xs) = some (a ++ ", " ++ b) := by
          simp [dumpsList, hx, hd]
        rw [lhs, hser, ← h1, ← h2]
        rfl

theorem dumpsDict_isSome :
    ∀ kvs : List (String × PyVal), (dumpsDict kvs).isSome = serDict kvs
  | [] => rfl
  | [(k, v)] => by
    have h := dumps_isSome v
    cases hd : json_dumps v with
    | none => rw [hd] at h; simp only [dumpsDict, serDict, Bool.and_true, ← h, hd]; rfl
    | some a => rw [hd] at h; simp only [dumpsDict, serDict, Bool.and_true, ← h, hd]; rfl
  | (k, v) :: kv2 :: kvs => by
    have h1 := dumps_isSome v
    have h2 := dumpsDict_isSome (kv2 :: kvs)
    have hser : serDict ((k, v) :: kv2 :: kvs) =
        (jsonSerializable v && serDict (kv2 :: kvs)) := rfl
    cases hx : json_dumps v with
    | none =>
      rw [hx] at h1
      have lhs : dumpsDict ((k, v) :: kv2 :: kvs) = none := by simp [dumpsDict, hx]
      rw [lhs, hser, ← h1, ← h2]
      rfl
    | some a =>
      rw [hx] at h1
      cases hd : dumpsDict (kv2 :: kvs) with
      | none =>
        rw [hd] at h2
        have lhs : dumpsDict ((k, v) :: kv2 :: kvs) = none := by
          simp [dumpsDict, hx, hd]
        rw [lhs, hser, ← h1, ← h2]
        rfl
      | some b =>
        rw [hd] at h2
        have lhs : dumpsDict ((k, v) :: kv2 :: kvs) =
            some (dumpStr k ++ ": " ++ a ++ ", " ++ b) := by
          simp [dumpsDict, hx, hd]
        rw [lhs, hser, ← h1, ← h2]
        rfl

end

/-- C8 as stated is false: an unserializable value in the log mapping is
not stringified; json.dumps has no default handler in the source, so
write_log raises a TypeError. -/
theorem C8_counterexample :
    write_log ⟨2025, 5, 20⟩
      (PyVal.pdict
        [("target_date", PyVal.pstr "2025-05-20"),
         ("selection_call", PyVal.pobj "CompletionUsage")]) =
      .error PyError.typeError := rfl

/-- C8 (amended): write_log never throws on a serializable mapping and
writes the date-keyed log artifact, but a mapping holding an
unserializable value raises a TypeError instead of being stringified. -/
theorem C8_amended (date : Date) (log : PyVal) :
    (jsonSerializable log = true →
      ∃ text, write_log date log = .ok ("mt_digest_" ++ isoformat date ++ ".log", text)) ∧
    (jsonSerializable log = false → write_log date log = .error PyError.typeError) := by
  constructor
  · intro h
    have hd := dumps_isSome log
    rw [h] at hd
    obtain ⟨text, ht⟩ := Option.isSome_iff_exists.mp hd
    exact ⟨text, by simp [write_log, ht]⟩
  · intro h
    have hd := dumps_isSome log
    rw [h] at hd
    have hn : json_dumps log = none := Option.not_isSome_iff_eq_none.mp (by simp [hd])
    simp [write_log, hn]

/-- Witness for C8 (amended) on a concrete serializable log mapping. -/
theorem C8_amended_witness :
    ∃ text, write_log ⟨2025, 5, 20⟩
      (PyVal.pdict
        [("target_date", PyVal.pstr "2025-05-20"),
         ("total_papers", PyVal.pint 5),
         ("picked_indices", PyVal.plist [PyVal.pint 2, PyVal.pint 4])]) =
      .ok ("mt_digest_" ++ isoformat ⟨2025, 5, 20⟩ ++ ".log", text) :=
  (C8_amended ⟨2025, 5, 20⟩ _).1 rfl

/-! ## Claims C10 and C7 -/

/-- C10: with an existing Markdown file and a nonempty BUTTONDOWN_TOKEN,
building the upload payload resolves the undefined name SUBJECT (only
the lowercase subject is bound), so the run terminates with an uncaught
NameError and exit code 1 before any HTTP request is issued: no draft is
uploaded and no email is sent, for every possible service behavior. -/
theorem C10_payload_uses_undefined_SUBJECT (content tok : String)
    (oracle : Nat → HttpResp) (htok : tok ≠ "") :
    send_digest ["send_digest.py", "mt_digest_2025-05-20.md"] true content
        (some tok) oracle = (.nameError "SUBJECT", []) ∧
    sendExitCode (send_digest ["send_digest.py", "mt_digest_2025-05-20.md"] true content
        (some tok) oracle).1 = 1 := by
  have h1 : truthyStr (some tok) = some tok := by simp [truthyStr, htok]
  have hdate : parseDate (lastN 10 (stem "mt_digest_2025-05-20.md")) =
      some ⟨2025, 5, 20⟩ := rfl
  have key : send_digest ["send_digest.py", "mt_digest_2025-05-20.md"] true content
      (some tok) oracle = (.nameError "SUBJECT", []) := by
    simp [send_digest, h1, hdate, uploadAndSend, lookupName]
  exact ⟨key, by rw [key]; rfl⟩

/-- Witness for C10 at a concrete token and a concrete service. -/
theorem C10_payload_witness :
    send_digest ["send_digest.py", "mt_digest_2025-05-20.md"] true "digest body"
        (some "tok-123") (fun _ => ⟨true, 201, none, some "id-1", [], false⟩) =
      (.nameError "SUBJECT", []) :=
  (C10_payload_uses_undefined_SUBJECT "digest body" "tok-123"
    (fun _ => ⟨true, 201, none, some "id-1", [], false⟩) (by decide)).1

/-- C7 is contradicted by the code: the duplicate-recovery path can
never run.  Even when the service would answer the upload with the code
email_duplicate, the run issues no HTTP request at all (in particular no
draft lookup) and never reaches the send step, because the payload
construction crashes on the undefined name SUBJECT first. -/
theorem C7_duplicate_recovery_never_runs (content tok : String)
    (oracle : Nat → HttpResp) (htok : tok ≠ "") :
    (send_digest ["send_digest.py", "mt_digest_2025-05-21.md"] true content
        (some tok) oracle).2 = [] ∧
    (send_digest ["send_digest.py", "mt_digest_2025-05-21.md"] true content
        (some tok) oracle).1 = .nameError "SUBJECT" := by
  have h1 : truthyStr (some tok) = some tok := by simp [truthyStr, htok]
  have hdate : parseDate (lastN 10 (stem "mt_digest_2025-05-21.md")) =
      some ⟨2025, 5, 21⟩ := rfl
  have key : send_digest ["send_digest.py", "mt_digest_2025-05-21.md"] true content
      (some tok) oracle = (.nameError "SUBJECT", []) := by
    simp [send_digest, h1, hdate, uploadAndSend, lookupName]
  exact ⟨by rw [key], by rw [key]⟩

/-- Witness for C7 with a service that reports email_duplicate on every
call: the lookup and send still never happen. -/
theorem C7_duplicate_recovery_witness :
    (send_digest ["send_digest.py", "mt_digest_2025-05-21.md"] true "digest body"
        (some "tok-123")
        (fun _ => ⟨false, 400, some "email_duplicate", none, ["id-9"], false⟩)).2 = [] :=
  (C7_duplicate_recovery_never_runs "digest body" "tok-123"
    (fun _ => ⟨false, 400, some "email_duplicate", none, ["id-9"], false⟩) (by decide)).1

/-! ## Claim C4 -/

/-- C4: for every score function, paper batch and max_picks, the
embedding-strategy select returns at most min(max_picks, len(papers))
indices, all unique, all in 1..len(papers), sorted by descending score
with ties broken by ascending original index. -/
theorem C4_embed_select_spec (score : Paper → ℚ) (papers : List Paper) (max_picks : Nat) :
    (embed_select score papers max_picks).length ≤ min max_picks papers.length ∧
    (embed_select score papers max_picks).Nodup ∧
    (∀ i ∈ embed_select score papers max_picks, 1 ≤ i ∧ i ≤ papers.length) ∧
    (embed_select score papers max_picks).Pairwise (fun i j =>
      score (papers.getD (j - 1) default) < score (papers.getD (i - 1) default) ∨
      (score (papers.getD (i - 1) default) = score (papers.getD (j - 1) default) ∧ i < j)) := by
  classical
  set pairs := scoredPairs score papers 0 with hpairs
  set sortedP := List.insertionSort selKey pairs with hsorted
  have hperm : List.Perm sortedP pairs := List.perm_insertionSort selKey pairs
  have hlenp : pairs.length = papers.length := scoredPairs_length score papers 0
  have hlen_sorted : sortedP.length = papers.length := hperm.length_eq.trans hlenp
  have hmem : ∀ x ∈ sortedP,
      1 ≤ x.2 ∧ x.2 ≤ papers.length ∧ x.1 = score (papers.getD (x.2 - 1) default) := by
    intro x hx
    have hx2 : x ∈ pairs := hperm.subset hx
    obtain ⟨k, hk, h2, h1⟩ := mem_scoredPairs score papers 0 x hx2
    refine ⟨by omega, by omega, ?_⟩
    have hk2 : x.2 - 1 = k := by omega
    rw [hk2]
    exact h1
  have hsnd : pairs.map Prod.snd = List.range' 1 papers.length := by
    simpa using map_snd_scoredPairs score papers 0
  have hnds : (sortedP.map Prod.snd).Nodup := by
    have hp2 : List.Perm (sortedP.map Prod.snd) (pairs.map Prod.snd) := hperm.map Prod.snd
    rw [hsnd] at hp2
    exact hp2.nodup_iff.mpr (List.nodup_range' 1 papers.length)
  set takenP := sortedP.take max_picks with htaken
  have hsub : List.Sublist takenP sortedP := List.take_sublist _ _
  have hpicks : embed_select score papers max_picks = takenP.map Prod.snd := rfl
  rw [hpicks]
  have hnodup : (takenP.map Prod.snd).Nodup := by
    have hsm : List.Sublist (takenP.map Prod.snd) (sortedP.map Prod.snd) := hsub.map _
    exact hnds.sublist hsm
  refine ⟨?_, hnodup, ?_, ?_⟩
  · rw [List.length_map, htaken, List.length_take, hlen_sorted]
  · intro i hi
    obtain ⟨x, hx, rfl⟩ := List.mem_map.mp hi
    have hfx := hmem x (hsub.subset hx)
    exact ⟨hfx.1, hfx.2.1⟩
  · have hsorted_pw : takenP.Pairwise selKey :=
      (List.sorted_insertionSort selKey pairs).sublist hsub
    have hne_pw : takenP.Pairwise (fun a b => a.2 ≠ b.2) := List.pairwise_map.mp hnodup
    rw [List.pairwise_map]
    refine (hsorted_pw.and hne_pw).imp_of_mem ?_
    intro a b ha hb hab
    obtain ⟨hka, hne⟩ := hab
    have hfa := hmem a (hsub.subset ha)
    have hfb := hmem b (hsub.subset hb)
    rcases hka with hlt | ⟨heq, hle⟩
    · left
      rw [← hfa.2.2, ← hfb.2.2]
      exact hlt
    · right
      refine ⟨?_, ?_⟩
      · rw [← hfa.2.2, ← hfb.2.2]
        exact heq
      · omega

/-- Witness for C4 at a concrete score function and batch. -/
theorem C4_embed_select_witness :
    (embed_select (fun p => (p.title.length : ℚ)) samplePapers5 3).length ≤
        min 3 samplePapers5.length ∧
    (embed_select (fun p => (p.title.length : ℚ)) samplePapers5 3).Nodup ∧
    (∀ i ∈ embed_select (fun p => (p.title.length : ℚ)) samplePapers5 3,
        1 ≤ i ∧ i ≤ samplePapers5.length) ∧
    (embed_select (fun p => (p.title.length : ℚ)) samplePapers5 3).Pairwise (fun i j =>
      (((samplePapers5.getD (j - 1) default).title.length : ℚ)) <
          (((samplePapers5.getD (i - 1) default).title.length : ℚ)) ∨
      ((((samplePapers5.getD (i - 1) default).title.length : ℚ)) =
          (((samplePapers5.getD (j - 1) default).title.length : ℚ)) ∧ i < j)) :=
  C4_embed_select_spec (fun p => (p.title.length : ℚ)) samplePapers5 3

end Digest
